import Mathlib

/-!
Shallow embedding of `src/server.py` (ISS tracker service) and verification of
the specification claims against it.

The program is a single-file Flask service.  We model the SQLite branch
(`USE_POSTGRES = False`, the default fallback): the table `iss_positions` is a
list of rows plus the AUTOINCREMENT counter, SQLite TEXT comparison is
byte-wise lexicographic comparison of the stored strings, and each endpoint is
a pure function of the store (plus the upstream response and the current clock
reading, which we pass explicitly).

Rationals (`ℚ`) stand for Python floats, `Option` for values that may be
`None`, and fallible code returns `Option` (with `none` for a raised-and-caught
exception or an HTTP error response).
-/

namespace ISS

/-! ## Decimal digits and zero-padded numerals (models `strftime` padding) -/

/-- The decimal digit character for `n % 10`. -/
def digitChar (n : Nat) : Char :=
  if n % 10 = 0 then '0' else if n % 10 = 1 then '1' else if n % 10 = 2 then '2'
  else if n % 10 = 3 then '3' else if n % 10 = 4 then '4' else if n % 10 = 5 then '5'
  else if n % 10 = 6 then '6' else if n % 10 = 7 then '7' else if n % 10 = 8 then '8'
  else '9'

/-- Fuel-driven base-10 digit accumulator (most significant digit first). -/
def natDigitsAux : Nat → Nat → List Char → List Char
  | 0, _, acc => acc
  | fuel + 1, n, acc =>
      if n = 0 then acc else natDigitsAux fuel (n / 10) (digitChar n :: acc)

/-- Decimal digit characters of `n` (`"0"` for zero). -/
def natDigits (n : Nat) : List Char :=
  if n = 0 then ['0'] else natDigitsAux (n + 1) n []

/-- `n` rendered in decimal, left-padded with `'0'` to width `w`. -/
def padNum (w n : Nat) : List Char :=
  List.replicate (w - (natDigits n).length) '0' ++ natDigits n

/-- Decimal string of a natural number. -/
def natStr (n : Nat) : String := String.mk (natDigits n)

/-- Decimal string of an integer (with a leading `'-'` when negative). -/
def intStr (n : Int) : String :=
  if n < 0 then String.mk ('-' :: natDigits n.natAbs) else natStr n.natAbs

/-! ## Calendar conversion: `datetime.utcfromtimestamp` + `strftime`

`fetch_iss_position` builds `ts.strftime("%Y-%m-%d %H:%M:%S")` from
`datetime.utcfromtimestamp(epoch)`.  We convert epoch seconds to a civil UTC
date with the standard era-based algorithm (proleptic Gregorian calendar, the
same calendar `datetime` uses). -/

/-- Days since 1970-01-01 of the instant `e` seconds since the epoch
(floor division, as `datetime` does for negative timestamps). -/
def epochToDays (e : Int) : Int := e.fdiv 86400

/-- Second of the day of the instant `e` seconds since the epoch. -/
def secondOfDay (e : Int) : Nat := (e.emod 86400).toNat

/-- Civil (year, month, day) of a day count since 1970-01-01
(era-based Gregorian algorithm; valid for dates from year -468 on). -/
def civilFromDays (z : Int) : Nat × Nat × Nat :=
  let z' := (z + 719468).toNat
  let era := z' / 146097
  let doe := z' % 146097
  let yoe := (doe - doe / 1460 + doe / 36524 - doe / 146096) / 365
  let y := yoe + era * 400
  let doy := doe - (365 * yoe + yoe / 4 - yoe / 100)
  let mp := (5 * doy + 2) / 153
  let d := doy - (153 * mp + 2) / 5 + 1
  let m := if mp < 10 then mp + 3 else mp - 9
  (if m ≤ 2 then y + 1 else y, m, d)

/-- Characters of `strftime("%Y-%m-%d")` at epoch second `e`. -/
def dateChars (e : Int) : List Char :=
  let c := civilFromDays (epochToDays e)
  padNum 4 c.1 ++ '-' :: (padNum 2 c.2.1 ++ '-' :: padNum 2 c.2.2)

/-- Characters of `strftime("%H:%M:%S")` at epoch second `e`. -/
def timeChars (e : Int) : List Char :=
  let s := secondOfDay e
  padNum 2 (s / 3600) ++ ':' :: (padNum 2 (s % 3600 / 60) ++ ':' :: padNum 2 (s % 60))

/-- The UTC calendar date `YYYY-MM-DD` of epoch second `e`. -/
def dateString (e : Int) : String := String.mk (dateChars e)

/-- `datetime.utcfromtimestamp(e).strftime("%Y-%m-%d %H:%M:%S")`. -/
def fmtTs (e : Int) : String := String.mk (dateChars e ++ ' ' :: timeChars e)

/-- Python's `s.split(" ")[0]`: the prefix of `s` before its first space. -/
def firstSpaceField (s : String) : String :=
  String.mk (s.data.takeWhile (fun c => c != ' '))

/-! ## String comparison

SQLite compares TEXT columns with the BINARY collation (byte-wise `memcmp`).
All stored strings here are ASCII, so that is character-wise lexicographic
comparison.  (`String.decidableLT` does not reduce in the kernel, so we define
the comparison on the character lists directly.) -/

/-- Strict lexicographic order on character lists. -/
def lexLt : List Char → List Char → Bool
  | [], [] => false
  | [], _ :: _ => true
  | _ :: _, [] => false
  | a :: as, b :: bs => if a < b then true else if b < a then false else lexLt as bs

/-- `s < t` in SQLite's BINARY collation (for the ASCII strings used here). -/
def strLt (s t : String) : Bool := lexLt s.data t.data

/-! ## A small JSON value model (the payloads `resp.json()` can return) -/

inductive Json where
  | null
  | bool (b : Bool)
  | num (q : ℚ)
  | str (s : String)
  | arr (xs : List Json)
  | obj (kvs : List (String × Json))

/-- `data.get(k)` / `data[k]` lookup on an object; `none` for a missing key or
a non-object (where Python would raise, which the fetcher catches). -/
def jget : Json → String → Option Json
  | .obj kvs, k => kvs.lookup k
  | _, _ => none

/-! ## Python numeric coercions used by the fetcher -/

/-- Digit characters to the natural number they denote. -/
def digitsToNat (cs : List Char) : Nat :=
  cs.foldl (fun a c => a * 10 + (c.toNat - 48)) 0

/-- Python `float(s)` on a plain decimal literal (optional sign, digits,
optional fractional part); `none` when `float` would raise `ValueError`.
(Exponents/`inf`/`nan` spellings are not exercised by this service.) -/
def parseDecimal (s : String) : Option ℚ :=
  let p : Bool × List Char :=
    match s.data with
    | '-' :: t => (true, t)
    | '+' :: t => (false, t)
    | cs => (false, cs)
  let intPart := p.2.takeWhile Char.isDigit
  let rest := p.2.dropWhile Char.isDigit
  let sgn : Int := if p.1 then -1 else 1
  match rest with
  | [] => if intPart.isEmpty then none else some (mkRat (sgn * digitsToNat intPart) 1)
  | '.' :: frac =>
      if frac.all Char.isDigit && !(intPart.isEmpty && frac.isEmpty) then
        some (mkRat (sgn * (digitsToNat intPart * 10 ^ frac.length + digitsToNat frac))
                (10 ^ frac.length))
      else none
  | _ => none

/-- Python `int(s)` on a plain integer literal. -/
def parseIntStr (s : String) : Option Int :=
  let p : Bool × List Char :=
    match s.data with
    | '-' :: t => (true, t)
    | '+' :: t => (false, t)
    | cs => (false, cs)
  if p.2.isEmpty || !(p.2.all Char.isDigit) then none
  else some (if p.1 then -(digitsToNat p.2 : Int) else (digitsToNat p.2 : Int))

/-- Truncation toward zero, Python `int(float)`. -/
def truncQ (q : ℚ) : Int := Int.tdiv q.num q.den

/-- Python `float(x)` on a JSON value (`TypeError`/`ValueError` ↦ `none`). -/
def pyFloat : Json → Option ℚ
  | .num q => some q
  | .str s => parseDecimal s
  | .bool b => some (if b then 1 else 0)
  | _ => none

/-- Python `int(x)` on a JSON value (`TypeError`/`ValueError` ↦ `none`). -/
def pyInt : Json → Option Int
  | .num q => some (truncQ q)
  | .str s => parseIntStr s
  | .bool b => some (if b then 1 else 0)
  | _ => none

/-! ## The position store (the `iss_positions` table, SQLite branch)

A row holds the columns selected by the endpoints (`created_at` is never read
by any endpoint and is omitted).  `nextId` models the AUTOINCREMENT counter:
deletes never make an `id` reusable. -/

structure Row where
  id : Nat
  latitude : ℚ
  longitude : ℚ
  altitude : Option ℚ
  timestamp : String
  day : String
deriving DecidableEq, Repr

structure Store where
  rows : List Row
  nextId : Nat
deriving DecidableEq, Repr

/-- The freshly created table. -/
def emptyStore : Store := { rows := [], nextId := 1 }

/-- Configuration default `MAX_RETENTION_DAYS` (env default `"3"`). -/
def MAX_RETENTION_DAYS : Nat := 3

/-- `save_position(lat, lon, alt, ts_utc)`: computes
`day = ts_utc.split(" ")[0]` and INSERTs one row. -/
def save_position (st : Store) (lat lon : ℚ) (alt : Option ℚ) (ts_utc : String) : Store :=
  let day := firstSpaceField ts_utc
  { rows := st.rows ++ [{ id := st.nextId, latitude := lat, longitude := lon,
                          altitude := alt, timestamp := ts_utc, day := day }],
    nextId := st.nextId + 1 }

/-- The cutoff string `(utcnow() - timedelta(days=MAX_RETENTION_DAYS)).strftime(...)`
computed by `cleanup_old_data` at epoch second `now`. -/
def cutoffOf (now : Int) : String := fmtTs (now - MAX_RETENTION_DAYS * 86400)

/-- `cleanup_old_data()`: `DELETE FROM iss_positions WHERE timestamp < cutoff`.
Returns the store after the delete together with `cur.rowcount`. -/
def cleanup_old_data (now : Int) (st : Store) : Store × Nat :=
  let cutoff := cutoffOf now
  ({ rows := st.rows.filter (fun r => !(strLt r.timestamp cutoff)), nextId := st.nextId },
   st.rows.countP (fun r => strLt r.timestamp cutoff))

/-! ## The upstream fetch (`fetch_iss_position`) -/

/-- What `requests.get(API_URL, timeout=8)` produced: a raised exception
(connection error, timeout, ...) or a response with a status code and a body
(`none` when `resp.json()` would raise on malformed JSON). -/
inductive UpstreamResponse where
  | netError
  | httpResponse (status : Nat) (body : Option Json)

/-- A successful fetch result: the dict
`{"latitude": .., "longitude": .., "altitude": .., "ts_utc": ..}`. -/
structure Position where
  latitude : ℚ
  longitude : ℚ
  altitude : Option ℚ
  ts_utc : String
deriving DecidableEq, Repr

/-- `fetch_iss_position()`.  `now` is the epoch second `time.time()` would
return (used only as the fallback when the payload has no `"timestamp"` key).
Every raised exception is caught by the `except` clause and yields `none`;
`resp.raise_for_status()` raises exactly for status codes 4xx/5xx. -/
def fetch_iss_position (resp : UpstreamResponse) (now : Nat) : Option Position :=
  match resp with
  | .netError => none
  | .httpResponse status body =>
    if 400 ≤ status then none
    else
      match body with
      | none => none
      | some data =>
        match data with
        | .obj _ =>
          -- ts = datetime.utcfromtimestamp(int(data.get("timestamp", time.time())))
          let ts? : Option Int :=
            match jget data "timestamp" with
            | some j => pyInt j
            | none => some (now : Int)
          match ts? with
          | none => none
          | some e =>
            match jget data "iss_position" with
            | some posJ =>
                -- nested shape: lat/lon via KeyError-raising subscripts, no altitude
                match jget posJ "latitude", jget posJ "longitude" with
                | some latJ, some lonJ =>
                    match pyFloat latJ, pyFloat lonJ with
                    | some lat, some lon =>
                        some { latitude := lat, longitude := lon, altitude := none,
                               ts_utc := fmtTs e }
                    | _, _ => none
                | _, _ => none
            | none =>
                -- flat shape: data.get(key, 0) defaults every missing field to 0
                match pyFloat ((jget data "latitude").getD (.num 0)),
                      pyFloat ((jget data "longitude").getD (.num 0)),
                      pyFloat ((jget data "altitude").getD (.num 0)) with
                | some lat, some lon, some alt =>
                    some { latitude := lat, longitude := lon, altitude := some alt,
                           ts_utc := fmtTs e }
                | _, _, _ => none
        | _ => none -- non-dict JSON: `data.get` raises AttributeError

/-! ## The acquisition loop (`background_loop`) -/

/-- The environment one loop iteration runs against: the upstream response and
the two clock readings (`time.time()` inside the fetch, `utcnow()` inside
`cleanup_old_data`). -/
structure TickInput where
  resp : UpstreamResponse
  fetchNow : Nat
  cleanupNow : Int

/-- One iteration of `background_loop`: fetch; on success `save_position`;
always `cleanup_old_data`; then wait. -/
def tick (st : Store) (i : TickInput) : Store :=
  let st' :=
    match fetch_iss_position i.resp i.fetchNow with
    | some p => save_position st p.latitude p.longitude p.altitude p.ts_utc
    | none => st
  (cleanup_old_data i.cleanupNow st').1

/-- The loop run over a finite schedule of tick environments. -/
def runTicks : Store → List TickInput → Store
  | st, [] => st
  | st, i :: is => runTicks (tick st i) is

/-! ## Row ordering (`ORDER BY timestamp DESC` / `ASC`) -/

/-- `a` may precede `b` in descending timestamp order. -/
def rowGeTs (a b : Row) : Bool := !(strLt a.timestamp b.timestamp)

/-- `a` may precede `b` in ascending timestamp order. -/
def rowLeTs (a b : Row) : Bool := !(strLt b.timestamp a.timestamp)

/-- `ORDER BY timestamp DESC` (any sorted permutation realizes the SQL
ordering; ties are unordered in SQL). -/
def sortByTsDesc (l : List Row) : List Row :=
  l.insertionSort (fun a b => rowGeTs a b = true)

/-- `ORDER BY timestamp ASC`. -/
def sortByTsAsc (l : List Row) : List Row :=
  l.insertionSort (fun a b => rowLeTs a b = true)

/-! ## HTTP endpoints -/

/-- `_fetch_last_record()`: `SELECT .. ORDER BY timestamp DESC LIMIT 1`. -/
def fetch_last_record (st : Store) : Option Row :=
  (sortByTsDesc st.rows).head?

/-- The three possible responses of `GET /api/current`. -/
inductive CurrentResp where
  | live (p : Position)
  | stored (r : Row)
  | noData
deriving DecidableEq, Repr

/-- HTTP status of a `GET /api/current` response
(`jsonify(..)` is 200; the no-data body is sent with 404). -/
def currentStatus : CurrentResp → Nat
  | .live _ => 200
  | .stored _ => 200
  | .noData => 404

/-- `GET /api/current`: try a live fetch; on success store it and echo it;
otherwise fall back to the last stored record or a 404 error body.
Returns the response together with the store after the request. -/
def api_current (st : Store) (resp : UpstreamResponse) (now : Nat) : CurrentResp × Store :=
  match fetch_iss_position resp now with
  | some p => (.live p, save_position st p.latitude p.longitude p.altitude p.ts_utc)
  | none =>
    match fetch_last_record st with
    | some r => (.stored r, st)
    | none => (.noData, st)

/-- `GET /api/last3days`.  The handler executes
`... WHERE timestamp >= %s ORDER BY timestamp ASC` unconditionally, but the
modelled SQLite branch's `sqlite3` driver accepts only qmark (`?`)
placeholders, so `cur.execute` raises `OperationalError` on every call — an
unhandled exception, surfacing as HTTP 500 — and no row listing is ever
produced.  `none` models that error response. -/
def api_last3days (_st : Store) (_now : Int) : Option (List Row) := none

/-- Response shape of `GET /api/all-records`. -/
structure AllRecordsResp where
  total : Int
  page : Int
  per_page : Int
  total_pages : Int
  available_days : List String
  records : List Row
deriving DecidableEq, Repr

/-- `SELECT DISTINCT day FROM iss_positions ORDER BY day DESC`. -/
def distinctDaysDesc (st : Store) : List String :=
  ((st.rows.map Row.day).eraseDups).insertionSort (fun a b => lexLt a.data b.data = false)

/-- `GET /api/all-records?page=..&per_page=..&day=..`.
`day_filter = ""` is the falsy default (no filter).  `none` models the
unhandled `ZeroDivisionError` (HTTP 500) when `per_page = 0`.  Python `//` is
floor division (`Int.fdiv`); SQLite treats a negative `LIMIT` as "no limit"
and a negative `OFFSET` as `0`. -/
def api_all_records (st : Store) (page per_page : Int) (day_filter : String) :
    Option AllRecordsResp :=
  let available_days := distinctDaysDesc st
  let selRows := if day_filter = "" then st.rows
                 else st.rows.filter (fun r => r.day = day_filter)
  let total : Int := selRows.length
  if per_page = 0 then none
  else
    let total_pages := Int.fdiv (total + per_page - 1) per_page
    let page := if page < 1 then 1 else page
    let page := if page > total_pages ∧ total_pages > 0 then total_pages else page
    let offset := (page - 1) * per_page
    let base := (sortByTsDesc selRows).drop offset.toNat
    let records := if per_page < 0 then base else base.take per_page.toNat
    some { total := total, page := page, per_page := per_page,
           total_pages := total_pages, available_days := available_days,
           records := records }

/-! ## CSV export (`GET /api/download-csv`) -/

/-- Number of fractional decimal digits needed for `q` (the denominator is
`2^a 5^b` for every float), probed up to 64. -/
def fracLen (q : ℚ) : Option Nat :=
  (List.range 65).find? (fun k => 10 ^ k % q.den = 0)

/-- Python `str(float)` for decimal-representable values: the shortest decimal
expansion, with `".0"` appended to integral values (`str(12.0) = "12.0"`). -/
def renderQ (q : ℚ) : String :=
  if q.den = 1 then intStr q.num ++ ".0"
  else
    match fracLen q with
    | some k =>
        let n := q.num.natAbs * (10 ^ k / q.den)
        (if q.num < 0 then "-" else "") ++
          natStr (n / 10 ^ k) ++ "." ++ String.mk (padNum k (n % 10 ^ k))
    | none => "?"

/-- A CSV cell: `csv.writer` renders `None` as the empty field. -/
def csvCell : Option ℚ → String
  | none => ""
  | some q => renderQ q

/-- One data row written by `cw.writerow([...])` (fields here never need
quoting; the default line terminator is `"\r\n"`). -/
def csvRowLine (r : Row) : String :=
  r.timestamp ++ "," ++ r.day ++ "," ++ renderQ r.latitude ++ "," ++
    renderQ r.longitude ++ "," ++ csvCell r.altitude ++ "\r\n"

/-- The header row written by `cw.writerow(header)`. -/
def csvHeaderLine : String := "timestamp_utc,day,latitude,longitude,altitude_km\r\n"

/-- `GET /api/download-csv?day=..` (`day_filter` defaults to `"all"`).
`none` models the 404 "No data found" JSON error for an empty result set. -/
def api_download_csv (st : Store) (day_filter : String) : Option String :=
  let selRows := if day_filter ≠ "" ∧ day_filter ≠ "all"
                 then st.rows.filter (fun r => r.day = day_filter)
                 else st.rows
  let rows := sortByTsAsc selRows
  if rows.isEmpty then none
  else some (csvHeaderLine ++ String.join (rows.map csvRowLine))

/-! ## Concrete fixtures used by witnesses and counterexamples -/

/-- The nested-shape payload of the spec's scenario:
`{"iss_position": {"latitude": "10.5", "longitude": "20.5"}, "timestamp": 1700000000}`. -/
def nestedScenarioPayload : Json :=
  .obj [("iss_position", .obj [("latitude", .str "10.5"), ("longitude", .str "20.5")]),
        ("timestamp", .num 1700000000)]

/-- A flat-shape payload carrying only a timestamp: no coordinate fields at all. -/
def noCoordsPayload : Json := .obj [("timestamp", .num 1700000000)]

/-- The sample the fetcher produces from `noCoordsPayload`. -/
def zeroPosition : Position :=
  { latitude := 0, longitude := 0, altitude := some 0, ts_utc := "2023-11-14 22:13:20" }

/-- A stored row observed later but inserted first (`id = 1`). -/
def lateRow : Row :=
  { id := 1, latitude := 1, longitude := 1, altitude := none,
    timestamp := "2023-11-15 00:00:00", day := "2023-11-15" }

/-- A stored row observed earlier but inserted second (`id = 2`): an
out-of-order arrival. -/
def earlyRow : Row :=
  { id := 2, latitude := 2, longitude := 2, altitude := none,
    timestamp := "2023-11-14 00:00:00", day := "2023-11-14" }

/-- A store holding an out-of-order pair: the highest `id` is `earlyRow`,
the highest `timestamp` is `lateRow`. -/
def outOfOrderStore : Store := { rows := [lateRow, earlyRow], nextId := 3 }

/-- A row with known altitude `408.12` and the spec's example coordinates. -/
def csvRowKnownAlt : Row :=
  { id := 1, latitude := mkRat 25 2, longitude := mkRat (-91) 2,
    altitude := some (mkRat 40812 100), timestamp := "2023-11-14 22:13:20",
    day := "2023-11-14" }

/-- A row with unknown altitude. -/
def csvRowNoAlt : Row :=
  { id := 2, latitude := mkRat 25 2, longitude := mkRat (-91) 2,
    altitude := none, timestamp := "2023-11-14 22:13:21", day := "2023-11-14" }

/-- Fixture store for the CSV export. -/
def csvStore : Store := { rows := [csvRowKnownAlt, csvRowNoAlt], nextId := 3 }

/-- A row of the pagination fixture. -/
def pageRow (i : Nat) : Row :=
  { id := i, latitude := 0, longitude := 0, altitude := none,
    timestamp := "2025-11-01 00:00:00", day := "2025-11-01" }

/-- A store with 13 rows (the spec's pagination example). -/
def store13 : Store := { rows := (List.range 13).map (fun i => pageRow (i + 1)), nextId := 14 }

/-- A row old enough to be pruned at `now = 300000`. -/
def oldRow : Row :=
  { id := 1, latitude := 0, longitude := 0, altitude := none,
    timestamp := "1970-01-01 00:00:00", day := "1970-01-01" }

/-- Fixture store holding only `oldRow`. -/
def oldStore : Store := { rows := [oldRow], nextId := 2 }

/-! ## Helper lemmas: the date part of a formatted timestamp has no space -/

theorem digitChar_ne_space (n : Nat) : digitChar n ≠ ' ' := by
  unfold digitChar
  repeat' split
  all_goals decide

theorem mem_natDigitsAux (fuel : Nat) :
    ∀ (n : Nat) (acc : List Char), (∀ c ∈ acc, c ≠ ' ') →
      ∀ c ∈ natDigitsAux fuel n acc, c ≠ ' ' := by
  induction fuel with
  | zero => exact fun n acc h c hc => h c hc
  | succ fuel ih =>
      intro n acc h c hc
      unfold natDigitsAux at hc
      split at hc
      · exact h c hc
      · refine ih (n / 10) _ (fun d hd => ?_) c hc
        rcases List.mem_cons.mp hd with h1 | h1
        · subst h1; exact digitChar_ne_space n
        · exact h d h1

theorem mem_natDigits (n : Nat) : ∀ c ∈ natDigits n, c ≠ ' ' := by
  unfold natDigits
  split
  · intro c hc
    simp only [List.mem_singleton] at hc
    subst hc; decide
  · exact mem_natDigitsAux _ _ _ (by intro c hc; simp at hc)

theorem mem_padNum (w n : Nat) : ∀ c ∈ padNum w n, c ≠ ' ' := by
  intro c hc
  unfold padNum at hc
  rcases List.mem_append.mp hc with h | h
  · have := List.eq_of_mem_replicate h
    subst this; decide
  · exact mem_natDigits n c h

theorem mem_dateChars (e : Int) : ∀ c ∈ dateChars e, c ≠ ' ' := by
  intro c hc
  unfold dateChars at hc
  rcases List.mem_append.mp hc with h | h
  · exact mem_padNum _ _ c h
  · rcases List.mem_cons.mp h with h1 | h1
    · subst h1; decide
    · rcases List.mem_append.mp h1 with h2 | h2
      · exact mem_padNum _ _ c h2
      · rcases List.mem_cons.mp h2 with h3 | h3
        · subst h3; decide
        · exact mem_padNum _ _ c h3

theorem takeWhile_append_space (l1 l2 : List Char) (h : ∀ c ∈ l1, c ≠ ' ') :
    (l1 ++ ' ' :: l2).takeWhile (fun c => c != ' ') = l1 := by
  induction l1 with
  | nil => simp
  | cons a t ih =>
      have ha : a ≠ ' ' := h a (List.mem_cons_self a t)
      simp only [List.cons_append, List.takeWhile_cons, bne_iff_ne, ne_eq, ha,
        not_false_eq_true, if_true, List.cons.injEq, true_and]
      exact ih (fun c hc => h c (List.mem_cons_of_mem a hc))

theorem firstSpaceField_fmtTs (e : Int) : firstSpaceField (fmtTs e) = dateString e :=
  congrArg String.mk (takeWhile_append_space (dateChars e) (timeChars e) (mem_dateChars e))

/-! ## Helper lemmas: `lexLt` is a strict total order -/

theorem lexLt_irrefl (l : List Char) : lexLt l l = false := by
  induction l with
  | nil => rfl
  | cons a t ih => simp [lexLt, ih]

theorem lexLt_trans (l1 l2 l3 : List Char) (h1 : lexLt l1 l2 = true)
    (h2 : lexLt l2 l3 = true) : lexLt l1 l3 = true := by
  induction l1 generalizing l2 l3 with
  | nil =>
      cases l2 with
      | nil => exact absurd h1 (by simp [lexLt])
      | cons b bs =>
          cases l3 with
          | nil => exact absurd h2 (by simp [lexLt])
          | cons c cs => rfl
  | cons a as ih =>
      cases l2 with
      | nil => exact absurd h1 (by simp [lexLt])
      | cons b bs =>
          cases l3 with
          | nil => exact absurd h2 (by simp [lexLt])
          | cons c cs =>
              simp only [lexLt] at h1 h2 ⊢
              by_cases hab : a < b
              · by_cases hbc : b < c
                · simp [lt_trans hab hbc]
                · simp only [hbc, if_false] at h2
                  by_cases hcb : c < b
                  · simp [hcb] at h2
                  · have hbc' : b = c := le_antisymm (not_lt.mp hcb) (not_lt.mp hbc)
                    subst hbc'
                    simp [hab]
              · simp only [hab, if_false] at h1
                by_cases hba : b < a
                · simp [hba] at h1
                · have hab' : a = b := le_antisymm (not_lt.mp hba) (not_lt.mp hab)
                  subst hab'
                  simp only [if_neg hba] at h1
                  by_cases hac : a < c
                  · simp [hac]
                  · simp only [hac, if_false] at h2 ⊢
                    by_cases hca : c < a
                    · simp [hca] at h2
                    · simp only [if_neg hca] at h2 ⊢
                      exact ih bs cs h1 h2

theorem lexLt_asymm (l1 l2 : List Char) (h : lexLt l1 l2 = true) : lexLt l2 l1 = false := by
  by_contra hc
  have h2 : lexLt l2 l1 = true := by
    cases hl : lexLt l2 l1
    · exact absurd hl hc
    · rfl
  have := lexLt_trans l1 l2 l1 h h2
  rw [lexLt_irrefl] at this
  exact absurd this (by simp)

theorem lexLt_antisymm (l1 l2 : List Char) (h1 : lexLt l1 l2 = false)
    (h2 : lexLt l2 l1 = false) : l1 = l2 := by
  induction l1 generalizing l2 with
  | nil =>
      cases l2 with
      | nil => rfl
      | cons b bs => exact absurd h1 (by simp [lexLt])
  | cons a as ih =>
      cases l2 with
      | nil => exact absurd h2 (by simp [lexLt])
      | cons b bs =>
          simp only [lexLt] at h1 h2
          by_cases hab : a < b
          · exact absurd h1 (by simp [hab])
          · by_cases hba : b < a
            · exact absurd h2 (by simp [hba])
            · have hab' : a = b := le_antisymm (not_lt.mp hba) (not_lt.mp hab)
              subst hab'
              simp only [if_neg hab, if_neg hba] at h1 h2
              rw [ih bs h1 h2]

theorem strLt_self (s : String) : strLt s s = false := lexLt_irrefl s.data

/-! ## Helper lemmas: the timestamp sorts -/

theorem rowGeTs_total (a b : Row) : rowGeTs a b = true ∨ rowGeTs b a = true := by
  unfold rowGeTs strLt
  cases h : lexLt a.timestamp.data b.timestamp.data
  · left; rfl
  · right
    rw [lexLt_asymm _ _ h]
    rfl

theorem rowGeTs_trans (a b c : Row) (h1 : rowGeTs a b = true) (h2 : rowGeTs b c = true) :
    rowGeTs a c = true := by
  unfold rowGeTs strLt at h1 h2 ⊢
  simp only [Bool.not_eq_true'] at h1 h2 ⊢
  by_contra hc
  have hac : lexLt a.timestamp.data c.timestamp.data = true := by
    cases h : lexLt a.timestamp.data c.timestamp.data
    · exact absurd h hc
    · rfl
  by_cases hba : lexLt b.timestamp.data a.timestamp.data = true
  · have := lexLt_trans _ _ _ hba hac
    rw [h2] at this
    exact absurd this (by simp)
  · have hba' : lexLt b.timestamp.data a.timestamp.data = false := by
      cases h : lexLt b.timestamp.data a.timestamp.data
      · rfl
      · exact absurd h hba
    have : a.timestamp.data = b.timestamp.data := lexLt_antisymm _ _ h1 hba'
    rw [this, h2] at hac
    exact absurd hac (by simp)

theorem rowLeTs_total (a b : Row) : rowLeTs a b = true ∨ rowLeTs b a = true := by
  unfold rowLeTs strLt
  cases h : lexLt b.timestamp.data a.timestamp.data
  · left; rfl
  · right
    rw [lexLt_asymm _ _ h]
    rfl

theorem sortByTsDesc_perm (l : List Row) : (sortByTsDesc l).Perm l :=
  List.perm_insertionSort _ l

theorem sortByTsAsc_perm (l : List Row) : (sortByTsAsc l).Perm l :=
  List.perm_insertionSort _ l

theorem sortByTsDesc_sorted (l : List Row) :
    List.Sorted (fun a b => rowGeTs a b = true) (sortByTsDesc l) := by
  haveI : IsTotal Row (fun a b => rowGeTs a b = true) := ⟨rowGeTs_total⟩
  haveI : IsTrans Row (fun a b => rowGeTs a b = true) := ⟨rowGeTs_trans⟩
  exact List.sorted_insertionSort _ l

/-- The row selected by `ORDER BY timestamp DESC LIMIT 1` is a stored row of
maximal timestamp. -/
theorem fetch_last_record_max (st : Store) (r : Row) (h : fetch_last_record st = some r) :
    r ∈ st.rows ∧ ∀ q ∈ st.rows, strLt r.timestamp q.timestamp = false := by
  unfold fetch_last_record at h
  cases hs : sortByTsDesc st.rows with
  | nil => rw [hs] at h; exact absurd h (by simp)
  | cons x t =>
      rw [hs] at h
      simp only [List.head?_cons, Option.some.injEq] at h
      subst h
      have hperm := sortByTsDesc_perm st.rows
      rw [hs] at hperm
      have hsorted := sortByTsDesc_sorted st.rows
      rw [hs] at hsorted
      refine ⟨hperm.subset (List.mem_cons_self x t), fun q hq => ?_⟩
      have hq' : q ∈ x :: t := hperm.mem_iff.mpr hq
      rcases List.mem_cons.mp hq' with h1 | h1
      · subst h1; exact strLt_self _
      · have := List.rel_of_pairwise_cons hsorted h1
        simpa [rowGeTs, Bool.not_eq_true'] using this

theorem fetch_last_record_of_ne_nil (st : Store) (h : st.rows ≠ []) :
    ∃ r, fetch_last_record st = some r := by
  unfold fetch_last_record
  cases hs : sortByTsDesc st.rows with
  | nil =>
      have hperm := sortByTsDesc_perm st.rows
      rw [hs] at hperm
      exact absurd hperm.symm.eq_nil h
  | cons x t => exact ⟨x, by simp⟩

/-! ## Helper lemmas: listing results only contain stored rows -/

theorem api_last3days_eq_none (st : Store) (now : Int) : api_last3days st now = none := rfl

theorem api_all_records_subset (st : Store) (page pp : Int) (df : String)
    (resp : AllRecordsResp) (h : api_all_records st page pp df = some resp) :
    ∀ r ∈ resp.records, r ∈ st.rows := by
  unfold api_all_records at h
  by_cases hpp : pp = 0
  · subst hpp
    simp at h
  · simp only [hpp, if_false, Option.some.injEq] at h
    subst h
    intro r hr
    simp only at hr
    have hbase : r ∈ sortByTsDesc (if df = "" then st.rows
        else st.rows.filter (fun q => q.day = df)) := by
      split at hr
      · exact List.drop_subset _ _ hr
      · exact List.drop_subset _ _ ((List.take_subset _ _) hr)
    have hsel := (sortByTsDesc_perm _).subset hbase
    split at hsel
    · exact hsel
    · exact (List.filter_sublist _).subset hsel

/-! ## Claim theorems -/

/-- C1: every sample persisted by `save_position` with a timestamp produced by
the fetcher's formatter stores `day` equal to the UTC calendar date
(`YYYY-MM-DD`) of that `observed_at` timestamp — the `day` column is computed
once at insert time from the timestamp string, and the only other mutation of
the table (the pruner's DELETE) passes surviving rows through unchanged, so it
is never recomputed. -/
theorem save_position_day_invariant (e : Int) (st : Store) (lat lon : ℚ) (alt : Option ℚ) :
    save_position st lat lon alt (fmtTs e) =
      { rows := st.rows ++ [{ id := st.nextId, latitude := lat, longitude := lon,
                              altitude := alt, timestamp := fmtTs e, day := dateString e }],
        nextId := st.nextId + 1 } ∧
    (∀ now : Int, ∀ r ∈ (cleanup_old_data now (save_position st lat lon alt (fmtTs e))).1.rows,
        r ∈ (save_position st lat lon alt (fmtTs e)).rows) := by
  constructor
  · unfold save_position
    rw [firstSpaceField_fmtTs]
  · intro now r hr
    exact (List.filter_sublist _).subset hr

/-- C1 witness: inserting at the scenario epoch stores
`day = "2023-11-14"` for timestamp `"2023-11-14 22:13:20"`. -/
theorem save_position_day_invariant_witness :
    save_position emptyStore 0 0 none (fmtTs 1700000000) =
      { rows := [{ id := 1, latitude := 0, longitude := 0, altitude := none,
                   timestamp := fmtTs 1700000000, day := dateString 1700000000 }],
        nextId := 2 } :=
  (save_position_day_invariant 1700000000 emptyStore 0 0 none).1

/-- C5: the pruner is idempotent — for every store state and fixed clock
reading, a second consecutive `cleanup_old_data` deletes 0 rows and leaves the
store exactly as the first call left it. -/
theorem cleanup_idempotent (now : Int) (st : Store) :
    cleanup_old_data now (cleanup_old_data now st).1 = ((cleanup_old_data now st).1, 0) := by
  unfold cleanup_old_data
  simp only [Prod.mk.injEq, Store.mk.injEq, List.filter_filter, Bool.not_and_self]
  refine ⟨⟨?_, trivial⟩, ?_⟩
  · exact List.filter_congr (fun r _ => by cases strLt r.timestamp (cutoffOf now) <;> rfl)
  · rw [List.countP_eq_zero]
    intro r hr
    have := (List.mem_filter.mp hr).2
    simp only [Bool.not_eq_true'] at this
    simp [this]

/-- Helper: when the fetch fails, a loop tick reduces to the prune alone. -/
theorem tick_of_fetch_none (st : Store) (i : TickInput)
    (h : fetch_iss_position i.resp i.fetchNow = none) :
    tick st i = (cleanup_old_data i.cleanupNow st).1 := by
  unfold tick
  rw [h]

/-- C3: on a tick whose fetch fails, no row is inserted (every row after the
tick already existed), the tick is a total function equal to the prune alone
(no exception escapes, so the loop neither raises nor terminates), and the
loop simply proceeds with the remaining schedule from the pruned store. -/
theorem background_loop_failure_tick (st : Store) (i : TickInput) (rest : List TickInput)
    (h : fetch_iss_position i.resp i.fetchNow = none) :
    tick st i = (cleanup_old_data i.cleanupNow st).1 ∧
    (∀ r ∈ (tick st i).rows, r ∈ st.rows) ∧
    runTicks st (i :: rest) = runTicks ((cleanup_old_data i.cleanupNow st).1) rest := by
  refine ⟨tick_of_fetch_none st i h, ?_, ?_⟩
  · intro r hr
    rw [tick_of_fetch_none st i h] at hr
    exact (List.filter_sublist _).subset hr
  · show runTicks (tick st i) rest = _
    rw [tick_of_fetch_none st i h]

/-- C3 witness: a concrete failing tick (network error) on a concrete store. -/
theorem background_loop_failure_tick_witness :
    fetch_iss_position UpstreamResponse.netError 0 = none ∧
    tick oldStore { resp := .netError, fetchNow := 0, cleanupNow := 0 } =
      (cleanup_old_data 0 oldStore).1 :=
  ⟨rfl, (background_loop_failure_tick oldStore
    { resp := .netError, fetchNow := 0, cleanupNow := 0 } [] rfl).1⟩

/-- C4: the pruner deletes exactly the rows whose stored timestamp is strictly
before the cutoff `now - MAX_RETENTION_DAYS` (SQLite compares the stored
timestamp strings, which for this fixed `YYYY-MM-DD HH:MM:SS` format is
chronological order) and keeps every other row; a row whose timestamp is
before the cutoff is afterwards absent from the store, hence from every
`/api/all-records` page, and from every `/api/last3days` range listing — the
latter vacuously, because in the modelled SQLite branch that endpoint's
mismatched `%s` placeholder makes every call raise `OperationalError`
(HTTP 500), so it never returns a listing at all (the theorem states that
always-error fact explicitly). -/
theorem cleanup_retention (now : Int) (st : Store) (r : Row) :
    (r ∈ (cleanup_old_data now st).1.rows ↔
      r ∈ st.rows ∧ strLt r.timestamp (cutoffOf now) = false) ∧
    (strLt r.timestamp (cutoffOf now) = true →
      r ∉ (cleanup_old_data now st).1.rows ∧
      (∀ (page pp : Int) (df : String) (resp : AllRecordsResp),
        api_all_records (cleanup_old_data now st).1 page pp df = some resp →
        r ∉ resp.records) ∧
      (∀ rows : List Row,
        api_last3days (cleanup_old_data now st).1 now = some rows → r ∉ rows) ∧
      api_last3days (cleanup_old_data now st).1 now = none) := by
  have hmem : r ∈ (cleanup_old_data now st).1.rows ↔
      r ∈ st.rows ∧ strLt r.timestamp (cutoffOf now) = false := by
    unfold cleanup_old_data
    simp [List.mem_filter, Bool.not_eq_true']
  refine ⟨hmem, fun h => ?_⟩
  have hnot : r ∉ (cleanup_old_data now st).1.rows := by
    intro hc
    have hfalse := (hmem.mp hc).2
    rw [h] at hfalse
    exact absurd hfalse (by simp)
  refine ⟨hnot, fun page pp df resp hresp hrec => ?_, fun rows hrows => ?_,
    api_last3days_eq_none _ now⟩
  · exact hnot (api_all_records_subset _ page pp df resp hresp r hrec)
  · exact absurd hrows (by simp [api_last3days])

/-- C4 witness: a concrete old row is pruned, absent from the store, and the
range endpoint produces no listing. -/
theorem cleanup_retention_witness :
    strLt oldRow.timestamp (cutoffOf 300000) = true ∧
    oldRow ∉ (cleanup_old_data 300000 oldStore).1.rows ∧
    api_last3days (cleanup_old_data 300000 oldStore).1 300000 = none :=
  ⟨by decide, ((cleanup_retention 300000 oldStore oldRow).2 (by decide)).1,
    ((cleanup_retention 300000 oldStore oldRow).2 (by decide)).2.2.2⟩

/-- C2 amended: a network error, an HTTP error status (4xx/5xx), malformed
JSON, or a nested-shape payload with a missing coordinate subfield all make
`fetch_iss_position` return `None`, and a failed fetch stores nothing; a
flat-shape payload with missing coordinate fields, however, defaults them to
`0.0` and does produce a stored sample (see the counterexample). -/
theorem fetch_error_handling :
    (∀ now, fetch_iss_position .netError now = none) ∧
    (∀ status body now, 400 ≤ status →
        fetch_iss_position (.httpResponse status body) now = none) ∧
    (∀ status now, fetch_iss_position (.httpResponse status none) now = none) ∧
    (∀ status data posJ now, jget data "iss_position" = some posJ →
        (jget posJ "latitude" = none ∨ jget posJ "longitude" = none) →
        fetch_iss_position (.httpResponse status (some data)) now = none) ∧
    (∀ (st : Store) (i : TickInput), fetch_iss_position i.resp i.fetchNow = none →
        ∀ r ∈ (tick st i).rows, r ∈ st.rows) := by
  refine ⟨fun now => rfl, ?_, ?_, ?_, ?_⟩
  · intro status body now h
    unfold fetch_iss_position
    dsimp only
    rw [if_pos h]
  · intro status now
    unfold fetch_iss_position
    dsimp only
    split
    · rfl
    · rfl
  · intro status data posJ now hpos hcoord
    unfold fetch_iss_position
    dsimp only
    by_cases h4 : 400 ≤ status
    · rw [if_pos h4]
    · rw [if_neg h4]
      cases data with
      | null => simp [jget] at hpos
      | bool b => simp [jget] at hpos
      | num q => simp [jget] at hpos
      | str s => simp [jget] at hpos
      | arr xs => simp [jget] at hpos
      | obj kvs =>
          cases hts : jget (Json.obj kvs) "timestamp" with
          | none =>
              simp only [hts, hpos]
              cases hlat : jget posJ "latitude" with
              | none => simp [hlat]
              | some latJ =>
                  rcases hcoord with hl | hl
                  · rw [hl] at hlat; exact absurd hlat (by simp)
                  · simp [hlat, hl]
          | some j =>
              simp only [hts, hpos]
              cases hj : pyInt j with
              | none => simp [hj]
              | some e =>
                  simp only [hj]
                  cases hlat : jget posJ "latitude" with
                  | none => simp [hlat]
                  | some latJ =>
                      rcases hcoord with hl | hl
                      · rw [hl] at hlat; exact absurd hlat (by simp)
                      · simp [hlat, hl]
  · intro st i h r hr
    rw [tick_of_fetch_none st i h] at hr
    exact (List.filter_sublist _).subset hr

/-- C2 witness: a concrete HTTP 500 response and a concrete nested payload
with no latitude subfield both fail. -/
theorem fetch_error_handling_witness :
    fetch_iss_position (.httpResponse 500 (some nestedScenarioPayload)) 0 = none ∧
    fetch_iss_position (.httpResponse 200 (some (.obj [("iss_position", .obj [])]))) 7 = none :=
  ⟨fetch_error_handling.2.1 500 (some nestedScenarioPayload) 0 (by norm_num),
   fetch_error_handling.2.2.2.1 200 (.obj [("iss_position", .obj [])]) (.obj []) 7 rfl
     (Or.inl rfl)⟩

/-- C2 counterexample: a flat-shape payload with no coordinate fields at all
is accepted — the coordinates default to `0.0` — and the acquisition loop
stores the resulting sample. -/
theorem fetch_missing_coords_counterexample :
    fetch_iss_position (.httpResponse 200 (some noCoordsPayload)) 0 = some zeroPosition ∧
    (tick emptyStore
      { resp := .httpResponse 200 (some noCoordsPayload), fetchNow := 0,
        cleanupNow := 1700000000 }).rows =
      [{ id := 1, latitude := 0, longitude := 0, altitude := some 0,
         timestamp := "2023-11-14 22:13:20", day := "2023-11-14" }] := by
  decide

/-- C10: `/api/current` is not a pure read: when the live fetch succeeds the
handler inserts the fetched sample into the store (the store grows by one row)
and replies with that sample; only when the live fetch fails does it answer
from the last stored record, leaving the store unchanged. -/
theorem api_current_frame_effect (st : Store) (resp : UpstreamResponse) (now : Nat) :
    (∀ p, fetch_iss_position resp now = some p →
        api_current st resp now =
          (.live p, save_position st p.latitude p.longitude p.altitude p.ts_utc) ∧
        (api_current st resp now).2.rows.length = st.rows.length + 1) ∧
    (fetch_iss_position resp now = none → (api_current st resp now).2 = st) := by
  constructor
  · intro p hp
    have heq : api_current st resp now =
        (.live p, save_position st p.latitude p.longitude p.altitude p.ts_utc) := by
      unfold api_current
      rw [hp]
    refine ⟨heq, ?_⟩
    rw [heq]
    simp [save_position]
  · intro h
    unfold api_current
    rw [h]
    cases fetch_last_record st <;> rfl

/-- C10 witness: a concrete successful fetch through `/api/current` appends
one row to the empty store. -/
theorem api_current_frame_effect_witness :
    fetch_iss_position (.httpResponse 200 (some noCoordsPayload)) 0 = some zeroPosition ∧
    api_current emptyStore (.httpResponse 200 (some noCoordsPayload)) 0 =
      (.live zeroPosition,
        save_position emptyStore zeroPosition.latitude zeroPosition.longitude
          zeroPosition.altitude zeroPosition.ts_utc) :=
  ⟨rfl, ((api_current_frame_effect emptyStore (.httpResponse 200 (some noCoordsPayload)) 0).1
    zeroPosition rfl).1⟩

/-- C8 amended: when the live fetch fails, `/api/current` answers with the
stored sample of highest `timestamp` (`ORDER BY timestamp DESC LIMIT 1`, not
highest `id`) as JSON if the store is non-empty, and otherwise with HTTP 404
and the no-data error body; when the live fetch succeeds it answers with the
freshly fetched (and just stored) sample. -/
theorem api_current_fallback_behavior (st : Store) (resp : UpstreamResponse) (now : Nat) :
    (fetch_iss_position resp now = none → st.rows = [] →
        api_current st resp now = (.noData, st) ∧
        currentStatus (api_current st resp now).1 = 404) ∧
    (fetch_iss_position resp now = none → st.rows ≠ [] →
        ∃ r, api_current st resp now = (.stored r, st) ∧ r ∈ st.rows ∧
          ∀ q ∈ st.rows, strLt r.timestamp q.timestamp = false) ∧
    (∀ p, fetch_iss_position resp now = some p → (api_current st resp now).1 = .live p) := by
  refine ⟨fun h he => ?_, fun h hne => ?_, fun p hp => ?_⟩
  · have hlast : fetch_last_record st = none := by
      unfold fetch_last_record
      rw [he]
      rfl
    have heq : api_current st resp now = (.noData, st) := by
      unfold api_current
      rw [h, hlast]
    exact ⟨heq, by rw [heq]; rfl⟩
  · obtain ⟨r, hr⟩ := fetch_last_record_of_ne_nil st hne
    obtain ⟨hmem, hmax⟩ := fetch_last_record_max st r hr
    refine ⟨r, ?_, hmem, hmax⟩
    unfold api_current
    rw [h, hr]
  · unfold api_current
    rw [hp]

/-- C8 witness: on the empty store with a failing fetch, the endpoint returns
the 404 no-data response. -/
theorem api_current_fallback_behavior_witness :
    fetch_iss_position UpstreamResponse.netError 0 = none ∧
    api_current emptyStore .netError 0 = (.noData, emptyStore) :=
  ⟨rfl, ((api_current_fallback_behavior emptyStore .netError 0).1 rfl rfl).1⟩

/-- C8 counterexample: with an out-of-order pair stored, the endpoint returns
`lateRow` (highest timestamp, `id = 1`) although the row with the highest id
is `earlyRow` (`id = 2`) — the "latest" sample is selected by timestamp,
not by id. -/
theorem api_current_highest_ts_counterexample :
    api_current outOfOrderStore .netError 0 = (.stored lateRow, outOfOrderStore) ∧
    earlyRow ∈ outOfOrderStore.rows ∧
    (∀ r ∈ outOfOrderStore.rows, r.id ≤ earlyRow.id) ∧
    lateRow.id ≠ earlyRow.id := by
  decide

/-- C9 amended: the CSV export has fixed column order
`timestamp_utc/day/latitude/longitude/altitude_km` — there is no id column —
numeric cells are rendered with Python `str()` (shortest decimal
representation, no fixed precision), and an unknown altitude renders as an
empty field, not `0`. -/
theorem download_csv_format (st : Store) (h : st.rows ≠ []) :
    api_download_csv st "all" =
      some (csvHeaderLine ++ String.join ((sortByTsAsc st.rows).map csvRowLine)) ∧
    csvHeaderLine = "timestamp_utc,day,latitude,longitude,altitude_km\r\n" ∧
    (∀ r : Row, r.altitude = none →
        csvRowLine r = r.timestamp ++ "," ++ r.day ++ "," ++ renderQ r.latitude ++ "," ++
          renderQ r.longitude ++ "," ++ "" ++ "\r\n") := by
  refine ⟨?_, rfl, fun r hr => ?_⟩
  · have hne : ¬ ((sortByTsAsc st.rows).isEmpty = true) := by
      simp only [List.isEmpty_iff]
      intro hc
      have hperm := sortByTsAsc_perm st.rows
      rw [hc] at hperm
      exact h hperm.symm.eq_nil
    have hcond : ¬ (("all" : String) ≠ "" ∧ ("all" : String) ≠ "all") := by simp
    unfold api_download_csv
    simp only [if_neg hcond, if_neg hne]
  · unfold csvRowLine
    rw [hr]
    rfl

/-- C9 witness: the two-row fixture store exports header plus its rows. -/
theorem download_csv_format_witness :
    csvStore.rows ≠ [] ∧
    api_download_csv csvStore "all" =
      some (csvHeaderLine ++ String.join ((sortByTsAsc csvStore.rows).map csvRowLine)) :=
  ⟨by decide, (download_csv_format csvStore (by decide)).1⟩

/-- C9 counterexample: the concrete export of the fixture store — its first
line is `timestamp_utc,day,latitude,longitude,altitude_km` (no id column, and
a different order than claimed), latitude `12.5` renders as `"12.5"` rather
than to six decimal places, and the unknown altitude of the second row is an
empty final field. -/
theorem download_csv_counterexample :
    api_download_csv csvStore "all" =
      some ("timestamp_utc,day,latitude,longitude,altitude_km\r\n2023-11-14 22:13:20,2023-11-14,12.5,-45.5,408.12\r\n2023-11-14 22:13:21,2023-11-14,12.5,-45.5,\r\n") ∧
    ¬ ("timestamp_utc,day,latitude,longitude,altitude_km" =
        "id,timestamp,day,latitude,longitude,altitude") ∧
    renderQ (mkRat 25 2) = "12.5" ∧ ¬ (renderQ (mkRat 25 2) = "12.500000") := by
  decide

/-- Helper: Python `(t + p - 1) // p` is the ceiling of `t / p` for `p ≥ 1`. -/
theorem fdiv_ceil_eq (t p : Int) (hp : 1 ≤ p) :
    Int.fdiv (t + p - 1) p = ⌈(t : ℚ) / (p : ℚ)⌉ := by
  have hp0 : (0 : Int) < p := hp
  rw [Int.fdiv_eq_ediv _ (le_of_lt hp0)]
  symm
  rw [Int.ceil_eq_iff]
  have hdiv := Int.ediv_add_emod (t + p - 1) p
  have hr0 : 0 ≤ (t + p - 1) % p := Int.emod_nonneg _ (by omega)
  have hrp : (t + p - 1) % p < p := Int.emod_lt_of_pos _ hp0
  have hpQ : (0 : ℚ) < (p : ℚ) := by exact_mod_cast hp0
  constructor
  · rw [lt_div_iff₀ hpQ]
    have hlin : ((t + p - 1) / p - 1) * p < t := by nlinarith [hdiv, hr0, hrp]
    calc ((((t + p - 1) / p : Int) : ℚ) - 1) * (p : ℚ)
        = (((t + p - 1) / p - 1 : Int) : ℚ) * ((p : Int) : ℚ) := by push_cast; ring
      _ < ((t : Int) : ℚ) := by exact_mod_cast hlin
  · rw [div_le_iff₀ hpQ]
    have hlin : t ≤ (t + p - 1) / p * p := by nlinarith [hdiv, hr0, hrp]
    calc ((t : Int) : ℚ) ≤ (((t + p - 1) / p * p : Int) : ℚ) := by exact_mod_cast hlin
      _ = (((t + p - 1) / p : Int) : ℚ) * ((p : Int) : ℚ) := by push_cast; ring

/-- Helper: the two page-clamping conditionals keep the effective page at
least 1, and at most `total_pages` whenever `total_pages ≥ 1`. -/
theorem page_clamp_bounds (page tp : Int) :
    1 ≤ (if (if page < 1 then 1 else page) > tp ∧ tp > 0 then tp
         else (if page < 1 then 1 else page)) ∧
    (1 ≤ tp →
      (if (if page < 1 then 1 else page) > tp ∧ tp > 0 then tp
       else (if page < 1 then 1 else page)) ≤ tp) := by
  refine ⟨?_, fun h => ?_⟩ <;> split_ifs <;> omega

/-- C6 amended: for every `/api/all-records` request with `per_page ≥ 1`,
`total_pages` is the ceiling of `total / per_page`, the effective page is at
least 1 and — whenever there is at least one page — at most `total_pages`; in
particular for `total = 13`, `per_page = 5` the endpoint reports
`total_pages = 3` and clamps a requested `page = 5` down to 3.  `per_page`
itself is echoed back entirely unclamped (see the counterexample). -/
theorem all_records_pagination (st : Store) (page pp : Int) (df : String) (hpp : 1 ≤ pp) :
    ∃ resp, api_all_records st page pp df = some resp ∧
      resp.per_page = pp ∧
      resp.total_pages = ⌈(resp.total : ℚ) / (pp : ℚ)⌉ ∧
      1 ≤ resp.page ∧
      (1 ≤ resp.total_pages → resp.page ≤ resp.total_pages) ∧
      (api_all_records store13 5 5 "").map (fun q => (q.page, q.total_pages)) = some (3, 3) := by
  have hpp0 : ¬ pp = 0 := by omega
  unfold api_all_records
  simp only [hpp0, if_false]
  refine ⟨_, rfl, rfl, ?_, ?_, ?_, by decide⟩
  · exact fdiv_ceil_eq _ pp hpp
  · exact (page_clamp_bounds page _).1
  · exact (page_clamp_bounds page _).2

/-- C6 witness: the 13-row fixture at `page = 5`, `per_page = 5`. -/
theorem all_records_pagination_witness :
    ∃ resp, api_all_records store13 5 5 "" = some resp ∧
      resp.per_page = 5 ∧
      resp.total_pages = ⌈(resp.total : ℚ) / ((5 : Int) : ℚ)⌉ ∧
      1 ≤ resp.page ∧
      (1 ≤ resp.total_pages → resp.page ≤ resp.total_pages) ∧
      (api_all_records store13 5 5 "").map (fun q => (q.page, q.total_pages)) = some (3, 3) :=
  all_records_pagination store13 5 5 "" (by decide)

/-- C6 counterexample: `per_page` is not clamped to any maximum — a request
with `per_page = 999999` (far above 5000) is used and echoed back as-is. -/
theorem per_page_unclamped_counterexample :
    (api_all_records emptyStore 1 999999 "").map AllRecordsResp.per_page = some 999999 ∧
    ¬ ((999999 : Int) ≤ 5000) := by
  decide

/-- Helper: truncation toward zero is the identity on a cast natural. -/
theorem truncQ_natCast (n : Nat) : truncQ (n : ℚ) = (n : Int) := by
  unfold truncQ
  rw [Rat.num_natCast, Rat.den_natCast]
  simp [Int.tdiv]

/-- C7: every successful fetch of a nested-shape payload (the
`"iss_position"` key is present) yields a sample with `altitude = None` and
`observed_at` formatted from the payload's epoch `"timestamp"` field
interpreted as UTC — for the spec's scenario payload with epoch `1700000000`
the timestamp is `2023-11-14 22:13:20` — and, when the `"timestamp"` key is
absent, from the caller's current UTC clock instead. -/
theorem fetch_nested_shape (now status : Nat) (data posJ : Json) (r : Position)
    (hpos : jget data "iss_position" = some posJ)
    (hr : fetch_iss_position (.httpResponse status (some data)) now = some r) :
    r.altitude = none ∧
    (∀ n : Nat, jget data "timestamp" = some (.num (n : ℚ)) → r.ts_utc = fmtTs (n : Int)) ∧
    (jget data "timestamp" = none → r.ts_utc = fmtTs (now : Int)) ∧
    fetch_iss_position (.httpResponse 200 (some nestedScenarioPayload)) now =
      some { latitude := mkRat 21 2, longitude := mkRat 41 2, altitude := none,
             ts_utc := "2023-11-14 22:13:20" } := by
  have hscenario : fetch_iss_position (.httpResponse 200 (some nestedScenarioPayload)) now =
      some { latitude := mkRat 21 2, longitude := mkRat 41 2, altitude := none,
             ts_utc := "2023-11-14 22:13:20" } := rfl
  unfold fetch_iss_position at hr
  dsimp only at hr
  by_cases h4 : 400 ≤ status
  · rw [if_pos h4] at hr
    exact absurd hr (by simp)
  · rw [if_neg h4] at hr
    cases data with
    | null => simp [jget] at hpos
    | bool b => simp [jget] at hpos
    | num q => simp [jget] at hpos
    | str s => simp [jget] at hpos
    | arr xs => simp [jget] at hpos
    | obj kvs =>
        cases hts : jget (Json.obj kvs) "timestamp" with
        | none =>
            simp only [hts, hpos] at hr
            cases hlat : jget posJ "latitude" with
            | none => simp [hlat] at hr
            | some latJ =>
                cases hlon : jget posJ "longitude" with
                | none => simp [hlat, hlon] at hr
                | some lonJ =>
                    cases hflat : pyFloat latJ with
                    | none => simp [hlat, hlon, hflat] at hr
                    | some lat =>
                        cases hflon : pyFloat lonJ with
                        | none => simp [hlat, hlon, hflat, hflon] at hr
                        | some lon =>
                            simp only [hlat, hlon, hflat, hflon, Option.some.injEq] at hr
                            subst hr
                            refine ⟨rfl, ?_, fun _ => rfl, hscenario⟩
                            intro n htsn
                            exact absurd htsn (by simp)
        | some j =>
            cases hj : pyInt j with
            | none => simp [hts, hj] at hr
            | some e =>
                simp only [hts, hj, hpos] at hr
                cases hlat : jget posJ "latitude" with
                | none => simp [hlat] at hr
                | some latJ =>
                    cases hlon : jget posJ "longitude" with
                    | none => simp [hlat, hlon] at hr
                    | some lonJ =>
                        cases hflat : pyFloat latJ with
                        | none => simp [hlat, hlon, hflat] at hr
                        | some lat =>
                            cases hflon : pyFloat lonJ with
                            | none => simp [hlat, hlon, hflat, hflon] at hr
                            | some lon =>
                                simp only [hlat, hlon, hflat, hflon,
                                  Option.some.injEq] at hr
                                subst hr
                                refine ⟨rfl, ?_, ?_, hscenario⟩
                                · intro n htsn
                                  injection htsn with hje
                                  subst hje
                                  have hpy : pyInt (Json.num (n : ℚ)) =
                                      some (truncQ (n : ℚ)) := rfl
                                  rw [hpy, truncQ_natCast] at hj
                                  injection hj with hje2
                                  subst hje2
                                  rfl
                                · intro habs
                                  exact absurd habs (by simp)

/-- C7 witness: the scenario payload itself satisfies both hypotheses, and the
resulting sample has no altitude. -/
theorem fetch_nested_shape_witness :
    jget nestedScenarioPayload "iss_position" =
      some (.obj [("latitude", .str "10.5"), ("longitude", .str "20.5")]) ∧
    fetch_iss_position (.httpResponse 200 (some nestedScenarioPayload)) 0 =
      some { latitude := mkRat 21 2, longitude := mkRat 41 2, altitude := none,
             ts_utc := "2023-11-14 22:13:20" } ∧
    ({ latitude := mkRat 21 2, longitude := mkRat 41 2, altitude := none,
       ts_utc := "2023-11-14 22:13:20" } : Position).altitude = none :=
  ⟨rfl, rfl,
    (fetch_nested_shape 0 200 nestedScenarioPayload
      (.obj [("latitude", .str "10.5"), ("longitude", .str "20.5")])
      { latitude := mkRat 21 2, longitude := mkRat 41 2, altitude := none,
        ts_utc := "2023-11-14 22:13:20" } rfl rfl).1⟩

end ISS
